import Mathlib

/-!
Verification of the log-processing event pipeline.

The development shallowly embeds the core of the pipeline:
* the streaming log parser/aggregator (`internal/processor/logparser.go` and
  `internal/models/events.go`),
* the job validator/publisher (`cmd/trigger/main.go`, `processRecord`),
* the job consumer (`cmd/worker/main.go`, `handler`, `processMessage`,
  `saveFailedResult`).

Conventions of the embedding:
* The byte stream handed to the parser is modelled as the list of lines the
  `bufio.Scanner` would yield (the scanner itself is Go library code).
* `json.Unmarshal` into a `LogEntry` is Go library code; it is modelled as an
  abstract decoder `String → Option LogEntry` passed as a parameter.  Concrete
  decoders used in concrete scenarios are modelled from the spec's log-file
  format.
* Go `int`/`int64` are modelled as `Int` (no claim depends on overflow),
  Go `float64` averages as `Rat`, Go `map[string]struct\x7b\x7d` sets as
  `Finset String`, and Go `map[int]int` as a function `Int → Nat`.
* Wall-clock values (`time.Now()` etc.) are opaque `Int` parameters.
-/

set_option maxHeartbeats 1000000

/-- `LogEntry` from `internal/models/events.go`: a single decoded log line. -/
structure LogEntry where
  timestamp : String
  level : String
  endpoint : String
  responseTimeMs : Int
  statusCode : Int
  userId : String
  message : String
deriving DecidableEq, Repr, Inhabited

/-- `LogAggregation` from `internal/models/events.go`: the running statistics
accumulator owned by one parser instance. -/
structure LogAggregation where
  totalLines : Nat
  processedLines : Nat
  errorCount : Nat
  warnCount : Nat
  infoCount : Nat
  debugCount : Nat
  totalResponseMs : Int
  maxResponseMs : Int
  uniqueUsers : Finset String
  uniqueEndpoints : Finset String
  statusCodeCounts : Int → Nat

/-- Field-wise extensionality for `LogAggregation`. -/
theorem LogAggregation.ext_fields (a b : LogAggregation)
    (h1 : a.totalLines = b.totalLines)
    (h2 : a.processedLines = b.processedLines)
    (h3 : a.errorCount = b.errorCount)
    (h4 : a.warnCount = b.warnCount)
    (h5 : a.infoCount = b.infoCount)
    (h6 : a.debugCount = b.debugCount)
    (h7 : a.totalResponseMs = b.totalResponseMs)
    (h8 : a.maxResponseMs = b.maxResponseMs)
    (h9 : a.uniqueUsers = b.uniqueUsers)
    (h10 : a.uniqueEndpoints = b.uniqueEndpoints)
    (h11 : a.statusCodeCounts = b.statusCodeCounts) : a = b := by
  cases a
  cases b
  simp only [LogAggregation.mk.injEq]
  exact ⟨h1, h2, h3, h4, h5, h6, h7, h8, h9, h10, h11⟩

/-- `NewLogAggregation` from `internal/models/events.go`: zero-valued counters
and empty maps. -/
def NewLogAggregation : LogAggregation :=
  { totalLines := 0
    processedLines := 0
    errorCount := 0
    warnCount := 0
    infoCount := 0
    debugCount := 0
    totalResponseMs := 0
    maxResponseMs := 0
    uniqueUsers := ∅
    uniqueEndpoints := ∅
    statusCodeCounts := fun _ => 0 }

/-- The `switch entry.Level` block of `LogParser.processEntry`
(`internal/processor/logparser.go`). -/
def countLevel (agg : LogAggregation) (entry : LogEntry) : LogAggregation :=
  if entry.level = "ERROR" then { agg with errorCount := agg.errorCount + 1 }
  else if entry.level = "WARN" then { agg with warnCount := agg.warnCount + 1 }
  else if entry.level = "INFO" then { agg with infoCount := agg.infoCount + 1 }
  else if entry.level = "DEBUG" then { agg with debugCount := agg.debugCount + 1 }
  else agg

/-- The response-time block of `LogParser.processEntry`: the sum is updated
unconditionally, the maximum only when strictly exceeded. -/
def trackResponse (agg : LogAggregation) (entry : LogEntry) : LogAggregation :=
  if agg.maxResponseMs < entry.responseTimeMs then
    { agg with totalResponseMs := agg.totalResponseMs + entry.responseTimeMs
               maxResponseMs := entry.responseTimeMs }
  else
    { agg with totalResponseMs := agg.totalResponseMs + entry.responseTimeMs }

/-- The unique-users block of `LogParser.processEntry`: empty user ids are
ignored. -/
def trackUsers (agg : LogAggregation) (entry : LogEntry) : LogAggregation :=
  if entry.userId = "" then agg
  else { agg with uniqueUsers := insert entry.userId agg.uniqueUsers }

/-- The unique-endpoints block of `LogParser.processEntry`: empty endpoints are
ignored. -/
def trackEndpoints (agg : LogAggregation) (entry : LogEntry) : LogAggregation :=
  if entry.endpoint = "" then agg
  else { agg with uniqueEndpoints := insert entry.endpoint agg.uniqueEndpoints }

/-- The status-code block of `LogParser.processEntry`: only positive status
codes are tallied. -/
def trackStatusCodes (agg : LogAggregation) (entry : LogEntry) : LogAggregation :=
  if 0 < entry.statusCode then
    { agg with statusCodeCounts := fun c =>
        if c = entry.statusCode then agg.statusCodeCounts c + 1
        else agg.statusCodeCounts c }
  else agg

/-- `LogParser.processEntry` (`internal/processor/logparser.go`, lines
104-137): the five sequential update blocks. -/
def processEntry (agg : LogAggregation) (entry : LogEntry) : LogAggregation :=
  trackStatusCodes
    (trackEndpoints (trackUsers (trackResponse (countLevel agg entry) entry) entry) entry)
    entry

/-- One iteration of the scan loop in `LogParser.Parse`
(`internal/processor/logparser.go`, lines 76-93): empty lines are skipped,
decode failures bump the warning counter, decoded entries are aggregated and
bump `ProcessedLines`.  The decoder stands for `json.Unmarshal`. -/
def parseStep (decode : String → Option LogEntry) (agg : LogAggregation)
    (line : String) : LogAggregation :=
  if line.length = 0 then agg
  else
    match decode line with
    | none => { agg with warnCount := agg.warnCount + 1 }
    | some entry =>
      { processEntry agg entry with
          processedLines := (processEntry agg entry).processedLines + 1 }

/-- `LogParser.Parse` (`internal/processor/logparser.go`, lines 68-101) on the
list of lines the scanner yields: fold the loop body over the lines, then set
`TotalLines` to the loop counter `lineNum`, which is incremented for every
scanned line (empty lines included). -/
def Parse (decode : String → Option LogEntry) (lines : List String) :
    LogAggregation :=
  { lines.foldl (parseStep decode) NewLogAggregation with
      totalLines := lines.length }

/-- `LogParser.GetAverageResponseTime` (`internal/processor/logparser.go`,
lines 140-146), with the `float64` division modelled exactly over `Rat`. -/
def GetAverageResponseTime (agg : LogAggregation) : Rat :=
  if agg.processedLines = 0 then 0
  else (agg.totalResponseMs : Rat) / (agg.processedLines : Rat)

example :
    (Parse (fun _ => none) ["a", "", "b"]).totalLines = 3 := by decide

example :
    (Parse (fun _ => none) ["a", "", "b"]).warnCount = 2 := by decide

/-- Behavior of Go `strings.Split` with a one-character separator, used by the
trigger on the object key (`strings` is Go library code; separators and keys
here are ASCII, where this model is exact). -/
def goSplit (s : String) (sep : Char) : List String :=
  (s.data.splitOn sep).map (fun cs => ⟨cs⟩)

/-- Behavior of Go `strings.ToLower` on ASCII text. -/
def goToLower (s : String) : String :=
  ⟨s.data.map Char.toLower⟩

/-- Behavior of Go `strings.HasSuffix`. -/
def goHasSuffix (s suffix : String) : Bool :=
  suffix.data.isSuffixOf s.data

/-- `ProcessingJob` from `internal/models/events.go`. -/
structure ProcessingJob where
  jobId : String
  bucket : String
  key : String
  size : Int
  contentType : String
  receivedAt : Int
  validatedAt : Int
deriving DecidableEq, Repr

/-- `ProcessingResult` from `internal/models/events.go`. -/
structure ProcessingResult where
  jobId : String
  status : String
  lineCount : Nat
  errorCount : Nat
  warnCount : Nat
  infoCount : Nat
  avgResponseTimeMs : Rat
  maxResponseTimeMs : Int
  uniqueUsers : Nat
  uniqueEndpoints : Nat
  processingTimeMs : Int
  fileSizeBytes : Int
  startedAt : Int
  completedAt : Int
  errorMessage : String
  expiresAt : Int
deriving DecidableEq, Repr

/-- Outcome of `processRecord` in `cmd/trigger/main.go` for one S3
notification record: either the record is silently skipped (`return nil`
before any job is built), or an error is returned, or a job is built and one
SQS message carrying it is sent. -/
inductive TriggerOutcome where
  | skipped : TriggerOutcome
  | failed : String → TriggerOutcome
  | enqueued : ProcessingJob → TriggerOutcome
deriving DecidableEq, Repr

/-- `processRecord` (`cmd/trigger/main.go`, lines 81-156).  The external
collaborators appear as parameters: `headResult` is the outcome of
`s3.HeadObject` (metadata size and content type, `none` on failure) and
`sendOk` the outcome of `sqs.SendMessage`.  `eventTime` and `now` stand for
`record.EventTime` and `time.Now()`. -/
def processRecord (bucket key : String) (headResult : Option (Int × String))
    (sendOk : Bool) (eventTime now : Int) : TriggerOutcome :=
  if ¬ (goHasSuffix (goToLower key) ".json" = true) then TriggerOutcome.skipped
  else
    match headResult with
    | none => TriggerOutcome.failed ("failed to head object " ++ bucket ++ "/" ++ key)
    | some (size, contentType) =>
      let parts := goSplit key '_'
      if 3 ≤ parts.length ∧ parts.headD "" = "logs/test" then
        if sendOk then
          TriggerOutcome.enqueued
            { jobId := parts.getD 1 ""
              bucket := bucket
              key := key
              size := size
              contentType := contentType
              receivedAt := eventTime
              validatedAt := now }
        else TriggerOutcome.failed "failed to send SQS message"
      else TriggerOutcome.failed ("could not extract test_id from key: " ++ key)

/-- The completed-`Result` construction of `processMessage`
(`cmd/worker/main.go`, lines 96-120): parse the fetched lines, then build the
`"completed"` record from the aggregation.  Wall-clock dependent fields are
parameters. -/
def processMessage (decode : String → Option LogEntry) (job : ProcessingJob)
    (lines : List String)
    (startedAt completedAt processingTimeMs expiresAt : Int) : ProcessingResult :=
  { jobId := job.jobId
    status := "completed"
    lineCount := (Parse decode lines).totalLines
    errorCount := (Parse decode lines).errorCount
    warnCount := (Parse decode lines).warnCount
    infoCount := (Parse decode lines).infoCount
    avgResponseTimeMs := GetAverageResponseTime (Parse decode lines)
    maxResponseTimeMs := (Parse decode lines).maxResponseMs
    uniqueUsers := (Parse decode lines).uniqueUsers.card
    uniqueEndpoints := (Parse decode lines).uniqueEndpoints.card
    processingTimeMs := processingTimeMs
    fileSizeBytes := job.size
    startedAt := startedAt
    completedAt := completedAt
    errorMessage := ""
    expiresAt := expiresAt }

/-- The failed-`Result` record built by `saveFailedResult`
(`cmd/worker/main.go`, lines 154-164): zero-valued statistics, status
`"failed"`, the error text in `ErrorMessage`. -/
def saveFailedResultRecord (job : ProcessingJob) (msg : String)
    (startedAt completedAt processingTimeMs expiresAt : Int) : ProcessingResult :=
  { jobId := job.jobId
    status := "failed"
    lineCount := 0
    errorCount := 0
    warnCount := 0
    infoCount := 0
    avgResponseTimeMs := 0
    maxResponseTimeMs := 0
    uniqueUsers := 0
    uniqueEndpoints := 0
    processingTimeMs := processingTimeMs
    fileSizeBytes := job.size
    startedAt := startedAt
    completedAt := completedAt
    errorMessage := msg
    expiresAt := expiresAt }

/-- Observable outcome of one `processMessage` call (`cmd/worker/main.go`,
lines 75-139): the error returned to the Lambda runtime (`none` means nil),
the result write attempted against DynamoDB, and the result actually stored
(the attempt minus a failed `PutItem`). -/
structure MessageOutcome where
  returnedError : Option String
  attemptedWrite : Option ProcessingResult
  storedResult : Option ProcessingResult
deriving DecidableEq, Repr

/-- `processMessage` (`cmd/worker/main.go`, lines 75-139) with its external
collaborators as parameters: `fetch` is the outcome of `s3.GetObject`
(the scanned lines on success), `scanErr` a read error surfaced by
`scanner.Err()` inside `LogParser.Parse`, and `saveOk` the outcome of the
DynamoDB `PutItem`.  On fetch or parse failure, `saveFailedResult` attempts to
store a failed record (a failed store is only logged) and the original error
is returned; on success the completed record is stored, and a failed store is
returned as an error. -/
def processMessageRun (decode : String → Option LogEntry) (job : ProcessingJob)
    (fetch : Except String (List String)) (scanErr : Option String)
    (saveOk : Bool)
    (startedAt completedAt processingTimeMs expiresAt : Int) : MessageOutcome :=
  match fetch with
  | Except.error e =>
    let msg := "failed to get S3 object: " ++ e
    let r := saveFailedResultRecord job msg startedAt completedAt processingTimeMs expiresAt
    { returnedError := some msg
      attemptedWrite := some r
      storedResult := if saveOk then some r else none }
  | Except.ok lines =>
    match scanErr with
    | some e =>
      let msg := "failed to parse logs: error scanning file: " ++ e
      let r := saveFailedResultRecord job msg startedAt completedAt processingTimeMs expiresAt
      { returnedError := some msg
        attemptedWrite := some r
        storedResult := if saveOk then some r else none }
    | none =>
      let r := processMessage decode job lines startedAt completedAt processingTimeMs expiresAt
      if saveOk then
        { returnedError := none, attemptedWrite := some r, storedResult := some r }
      else
        { returnedError := some "failed to save result"
          attemptedWrite := some r
          storedResult := none }

/-- An SQS queue message as seen by the worker handler. -/
structure SQSMessage where
  body : String
deriving DecidableEq, Repr

/-- The batch loop of `handler` (`cmd/worker/main.go`, lines 64-73):
process records in order, return the first error immediately (triggering
retry/DLQ for the whole batch), return nil if all succeed.  The returned pair
is (messages actually processed, returned error). -/
def handlerRun (process : SQSMessage → Option String) :
    List SQSMessage → List SQSMessage × Option String
  | [] => ([], none)
  | m :: rest =>
    match process m with
    | some e => ([m], some e)
    | none =>
      let r := handlerRun process rest
      (m :: r.1, r.2)

example :
    processRecord "b" "logs/readme.txt" (some (5, "text/plain")) true 0 0 =
      TriggerOutcome.skipped := by decide

/-- The entry a line contributes to the aggregation: `none` for empty lines
(skipped before decoding) and for decode failures. -/
def entryOf (decode : String → Option LogEntry) (line : String) : Option LogEntry :=
  if line.length = 0 then none else decode line

/-- The entries of the lines that decode successfully, in file order. -/
def decodedEntries (decode : String → Option LogEntry) (lines : List String) :
    List LogEntry :=
  lines.filterMap (entryOf decode)

/-- Per-line increment of `ProcessedLines`. -/
def procBump (decode : String → Option LogEntry) (line : String) : Nat :=
  match entryOf decode line with
  | some _ => 1
  | none => 0

/-- Per-line increment of the counter for one log level. -/
def levelBump (lvl : String) (decode : String → Option LogEntry) (line : String) : Nat :=
  match entryOf decode line with
  | some e => if e.level = lvl then 1 else 0
  | none => 0

/-- Per-line increment of `WarnCount`: one for a decode failure on a non-empty
line, one for a decoded `WARN` entry. -/
def warnBump (decode : String → Option LogEntry) (line : String) : Nat :=
  if line.length = 0 then 0
  else
    match decode line with
    | none => 1
    | some e => if e.level = "WARN" then 1 else 0

/-- Per-line increment of `TotalResponseMs`. -/
def respBump (decode : String → Option LogEntry) (line : String) : Int :=
  match entryOf decode line with
  | some e => e.responseTimeMs
  | none => 0

/-- Per-line contribution to the distinct-user set. -/
def userBump (decode : String → Option LogEntry) (line : String) : Finset String :=
  match entryOf decode line with
  | some e => if e.userId = "" then ∅ else {e.userId}
  | none => ∅

/-- Per-line contribution to the distinct-endpoint set. -/
def endpointBump (decode : String → Option LogEntry) (line : String) : Finset String :=
  match entryOf decode line with
  | some e => if e.endpoint = "" then ∅ else {e.endpoint}
  | none => ∅

/-- Per-line increment of the count for one status code. -/
def codeBump (decode : String → Option LogEntry) (line : String) (c : Int) : Nat :=
  match entryOf decode line with
  | some e => if 0 < e.statusCode ∧ c = e.statusCode then 1 else 0
  | none => 0

theorem countLevel_totalLines (a : LogAggregation) (e : LogEntry) :
    (countLevel a e).totalLines = a.totalLines := by
  unfold countLevel
  split_ifs <;> rfl

theorem countLevel_processedLines (a : LogAggregation) (e : LogEntry) :
    (countLevel a e).processedLines = a.processedLines := by
  unfold countLevel
  split_ifs <;> rfl

theorem countLevel_totalResponseMs (a : LogAggregation) (e : LogEntry) :
    (countLevel a e).totalResponseMs = a.totalResponseMs := by
  unfold countLevel
  split_ifs <;> rfl

theorem countLevel_maxResponseMs (a : LogAggregation) (e : LogEntry) :
    (countLevel a e).maxResponseMs = a.maxResponseMs := by
  unfold countLevel
  split_ifs <;> rfl

theorem countLevel_uniqueUsers (a : LogAggregation) (e : LogEntry) :
    (countLevel a e).uniqueUsers = a.uniqueUsers := by
  unfold countLevel
  split_ifs <;> rfl

theorem countLevel_uniqueEndpoints (a : LogAggregation) (e : LogEntry) :
    (countLevel a e).uniqueEndpoints = a.uniqueEndpoints := by
  unfold countLevel
  split_ifs <;> rfl

theorem countLevel_statusCodeCounts (a : LogAggregation) (e : LogEntry) :
    (countLevel a e).statusCodeCounts = a.statusCodeCounts := by
  unfold countLevel
  split_ifs <;> rfl

theorem trackResponse_totalLines (a : LogAggregation) (e : LogEntry) :
    (trackResponse a e).totalLines = a.totalLines := by
  unfold trackResponse
  split_ifs <;> rfl

theorem trackResponse_processedLines (a : LogAggregation) (e : LogEntry) :
    (trackResponse a e).processedLines = a.processedLines := by
  unfold trackResponse
  split_ifs <;> rfl

theorem trackResponse_errorCount (a : LogAggregation) (e : LogEntry) :
    (trackResponse a e).errorCount = a.errorCount := by
  unfold trackResponse
  split_ifs <;> rfl

theorem trackResponse_warnCount (a : LogAggregation) (e : LogEntry) :
    (trackResponse a e).warnCount = a.warnCount := by
  unfold trackResponse
  split_ifs <;> rfl

theorem trackResponse_infoCount (a : LogAggregation) (e : LogEntry) :
    (trackResponse a e).infoCount = a.infoCount := by
  unfold trackResponse
  split_ifs <;> rfl

theorem trackResponse_debugCount (a : LogAggregation) (e : LogEntry) :
    (trackResponse a e).debugCount = a.debugCount := by
  unfold trackResponse
  split_ifs <;> rfl

theorem trackResponse_uniqueUsers (a : LogAggregation) (e : LogEntry) :
    (trackResponse a e).uniqueUsers = a.uniqueUsers := by
  unfold trackResponse
  split_ifs <;> rfl

theorem trackResponse_uniqueEndpoints (a : LogAggregation) (e : LogEntry) :
    (trackResponse a e).uniqueEndpoints = a.uniqueEndpoints := by
  unfold trackResponse
  split_ifs <;> rfl

theorem trackResponse_statusCodeCounts (a : LogAggregation) (e : LogEntry) :
    (trackResponse a e).statusCodeCounts = a.statusCodeCounts := by
  unfold trackResponse
  split_ifs <;> rfl

theorem trackUsers_totalLines (a : LogAggregation) (e : LogEntry) :
    (trackUsers a e).totalLines = a.totalLines := by
  unfold trackUsers
  split_ifs <;> rfl

theorem trackUsers_processedLines (a : LogAggregation) (e : LogEntry) :
    (trackUsers a e).processedLines = a.processedLines := by
  unfold trackUsers
  split_ifs <;> rfl

theorem trackUsers_errorCount (a : LogAggregation) (e : LogEntry) :
    (trackUsers a e).errorCount = a.errorCount := by
  unfold trackUsers
  split_ifs <;> rfl

theorem trackUsers_warnCount (a : LogAggregation) (e : LogEntry) :
    (trackUsers a e).warnCount = a.warnCount := by
  unfold trackUsers
  split_ifs <;> rfl

theorem trackUsers_infoCount (a : LogAggregation) (e : LogEntry) :
    (trackUsers a e).infoCount = a.infoCount := by
  unfold trackUsers
  split_ifs <;> rfl

theorem trackUsers_debugCount (a : LogAggregation) (e : LogEntry) :
    (trackUsers a e).debugCount = a.debugCount := by
  unfold trackUsers
  split_ifs <;> rfl

theorem trackUsers_totalResponseMs (a : LogAggregation) (e : LogEntry) :
    (trackUsers a e).totalResponseMs = a.totalResponseMs := by
  unfold trackUsers
  split_ifs <;> rfl

theorem trackUsers_maxResponseMs (a : LogAggregation) (e : LogEntry) :
    (trackUsers a e).maxResponseMs = a.maxResponseMs := by
  unfold trackUsers
  split_ifs <;> rfl

theorem trackUsers_uniqueEndpoints (a : LogAggregation) (e : LogEntry) :
    (trackUsers a e).uniqueEndpoints = a.uniqueEndpoints := by
  unfold trackUsers
  split_ifs <;> rfl

theorem trackUsers_statusCodeCounts (a : LogAggregation) (e : LogEntry) :
    (trackUsers a e).statusCodeCounts = a.statusCodeCounts := by
  unfold trackUsers
  split_ifs <;> rfl

theorem trackEndpoints_totalLines (a : LogAggregation) (e : LogEntry) :
    (trackEndpoints a e).totalLines = a.totalLines := by
  unfold trackEndpoints
  split_ifs <;> rfl

theorem trackEndpoints_processedLines (a : LogAggregation) (e : LogEntry) :
    (trackEndpoints a e).processedLines = a.processedLines := by
  unfold trackEndpoints
  split_ifs <;> rfl

theorem trackEndpoints_errorCount (a : LogAggregation) (e : LogEntry) :
    (trackEndpoints a e).errorCount = a.errorCount := by
  unfold trackEndpoints
  split_ifs <;> rfl

theorem trackEndpoints_warnCount (a : LogAggregation) (e : LogEntry) :
    (trackEndpoints a e).warnCount = a.warnCount := by
  unfold trackEndpoints
  split_ifs <;> rfl

theorem trackEndpoints_infoCount (a : LogAggregation) (e : LogEntry) :
    (trackEndpoints a e).infoCount = a.infoCount := by
  unfold trackEndpoints
  split_ifs <;> rfl

theorem trackEndpoints_debugCount (a : LogAggregation) (e : LogEntry) :
    (trackEndpoints a e).debugCount = a.debugCount := by
  unfold trackEndpoints
  split_ifs <;> rfl

theorem trackEndpoints_totalResponseMs (a : LogAggregation) (e : LogEntry) :
    (trackEndpoints a e).totalResponseMs = a.totalResponseMs := by
  unfold trackEndpoints
  split_ifs <;> rfl

theorem trackEndpoints_maxResponseMs (a : LogAggregation) (e : LogEntry) :
    (trackEndpoints a e).maxResponseMs = a.maxResponseMs := by
  unfold trackEndpoints
  split_ifs <;> rfl

theorem trackEndpoints_uniqueUsers (a : LogAggregation) (e : LogEntry) :
    (trackEndpoints a e).uniqueUsers = a.uniqueUsers := by
  unfold trackEndpoints
  split_ifs <;> rfl

theorem trackEndpoints_statusCodeCounts (a : LogAggregation) (e : LogEntry) :
    (trackEndpoints a e).statusCodeCounts = a.statusCodeCounts := by
  unfold trackEndpoints
  split_ifs <;> rfl

theorem trackStatusCodes_totalLines (a : LogAggregation) (e : LogEntry) :
    (trackStatusCodes a e).totalLines = a.totalLines := by
  unfold trackStatusCodes
  split_ifs <;> rfl

theorem trackStatusCodes_processedLines (a : LogAggregation) (e : LogEntry) :
    (trackStatusCodes a e).processedLines = a.processedLines := by
  unfold trackStatusCodes
  split_ifs <;> rfl

theorem trackStatusCodes_errorCount (a : LogAggregation) (e : LogEntry) :
    (trackStatusCodes a e).errorCount = a.errorCount := by
  unfold trackStatusCodes
  split_ifs <;> rfl

theorem trackStatusCodes_warnCount (a : LogAggregation) (e : LogEntry) :
    (trackStatusCodes a e).warnCount = a.warnCount := by
  unfold trackStatusCodes
  split_ifs <;> rfl

theorem trackStatusCodes_infoCount (a : LogAggregation) (e : LogEntry) :
    (trackStatusCodes a e).infoCount = a.infoCount := by
  unfold trackStatusCodes
  split_ifs <;> rfl

theorem trackStatusCodes_debugCount (a : LogAggregation) (e : LogEntry) :
    (trackStatusCodes a e).debugCount = a.debugCount := by
  unfold trackStatusCodes
  split_ifs <;> rfl

theorem trackStatusCodes_totalResponseMs (a : LogAggregation) (e : LogEntry) :
    (trackStatusCodes a e).totalResponseMs = a.totalResponseMs := by
  unfold trackStatusCodes
  split_ifs <;> rfl

theorem trackStatusCodes_maxResponseMs (a : LogAggregation) (e : LogEntry) :
    (trackStatusCodes a e).maxResponseMs = a.maxResponseMs := by
  unfold trackStatusCodes
  split_ifs <;> rfl

theorem trackStatusCodes_uniqueUsers (a : LogAggregation) (e : LogEntry) :
    (trackStatusCodes a e).uniqueUsers = a.uniqueUsers := by
  unfold trackStatusCodes
  split_ifs <;> rfl

theorem trackStatusCodes_uniqueEndpoints (a : LogAggregation) (e : LogEntry) :
    (trackStatusCodes a e).uniqueEndpoints = a.uniqueEndpoints := by
  unfold trackStatusCodes
  split_ifs <;> rfl

theorem countLevel_errorCount (a : LogAggregation) (e : LogEntry) :
    (countLevel a e).errorCount = a.errorCount + (if e.level = "ERROR" then 1 else 0) := by
  unfold countLevel
  split_ifs <;> rfl

theorem countLevel_warnCount (a : LogAggregation) (e : LogEntry) :
    (countLevel a e).warnCount = a.warnCount + (if e.level = "WARN" then 1 else 0) := by
  unfold countLevel
  split_ifs <;> first | rfl | simp_all

theorem countLevel_infoCount (a : LogAggregation) (e : LogEntry) :
    (countLevel a e).infoCount = a.infoCount + (if e.level = "INFO" then 1 else 0) := by
  unfold countLevel
  split_ifs <;> first | rfl | simp_all

theorem countLevel_debugCount (a : LogAggregation) (e : LogEntry) :
    (countLevel a e).debugCount = a.debugCount + (if e.level = "DEBUG" then 1 else 0) := by
  unfold countLevel
  split_ifs <;> first | rfl | simp_all

theorem trackResponse_totalResponseMs (a : LogAggregation) (e : LogEntry) :
    (trackResponse a e).totalResponseMs = a.totalResponseMs + e.responseTimeMs := by
  unfold trackResponse
  split_ifs <;> rfl

theorem trackResponse_maxResponseMs (a : LogAggregation) (e : LogEntry) :
    (trackResponse a e).maxResponseMs = max a.maxResponseMs e.responseTimeMs := by
  unfold trackResponse
  split_ifs with h
  · exact (max_eq_right h.le).symm
  · exact (max_eq_left (not_lt.mp h)).symm

theorem trackUsers_uniqueUsers (a : LogAggregation) (e : LogEntry) :
    (trackUsers a e).uniqueUsers =
      a.uniqueUsers ∪ (if e.userId = "" then ∅ else {e.userId}) := by
  unfold trackUsers
  split_ifs <;> simp [Finset.insert_eq, Finset.union_comm]

theorem trackEndpoints_uniqueEndpoints (a : LogAggregation) (e : LogEntry) :
    (trackEndpoints a e).uniqueEndpoints =
      a.uniqueEndpoints ∪ (if e.endpoint = "" then ∅ else {e.endpoint}) := by
  unfold trackEndpoints
  split_ifs <;> simp [Finset.insert_eq, Finset.union_comm]

theorem trackStatusCodes_statusCodeCounts (a : LogAggregation) (e : LogEntry) (c : Int) :
    (trackStatusCodes a e).statusCodeCounts c =
      a.statusCodeCounts c + (if 0 < e.statusCode ∧ c = e.statusCode then 1 else 0) := by
  unfold trackStatusCodes
  by_cases h : 0 < e.statusCode
  · by_cases hc : c = e.statusCode
    · simp [h, hc]
    · simp [h, hc]
  · simp [h]

theorem processEntry_totalLines (a : LogAggregation) (e : LogEntry) :
    (processEntry a e).totalLines = a.totalLines := by
  unfold processEntry
  rw [trackStatusCodes_totalLines, trackEndpoints_totalLines, trackUsers_totalLines,
    trackResponse_totalLines, countLevel_totalLines]

theorem processEntry_processedLines (a : LogAggregation) (e : LogEntry) :
    (processEntry a e).processedLines = a.processedLines := by
  unfold processEntry
  rw [trackStatusCodes_processedLines, trackEndpoints_processedLines,
    trackUsers_processedLines, trackResponse_processedLines, countLevel_processedLines]

theorem processEntry_errorCount (a : LogAggregation) (e : LogEntry) :
    (processEntry a e).errorCount =
      a.errorCount + (if e.level = "ERROR" then 1 else 0) := by
  unfold processEntry
  rw [trackStatusCodes_errorCount, trackEndpoints_errorCount, trackUsers_errorCount,
    trackResponse_errorCount, countLevel_errorCount]

theorem processEntry_warnCount (a : LogAggregation) (e : LogEntry) :
    (processEntry a e).warnCount =
      a.warnCount + (if e.level = "WARN" then 1 else 0) := by
  unfold processEntry
  rw [trackStatusCodes_warnCount, trackEndpoints_warnCount, trackUsers_warnCount,
    trackResponse_warnCount, countLevel_warnCount]

theorem processEntry_infoCount (a : LogAggregation) (e : LogEntry) :
    (processEntry a e).infoCount =
      a.infoCount + (if e.level = "INFO" then 1 else 0) := by
  unfold processEntry
  rw [trackStatusCodes_infoCount, trackEndpoints_infoCount, trackUsers_infoCount,
    trackResponse_infoCount, countLevel_infoCount]

theorem processEntry_debugCount (a : LogAggregation) (e : LogEntry) :
    (processEntry a e).debugCount =
      a.debugCount + (if e.level = "DEBUG" then 1 else 0) := by
  unfold processEntry
  rw [trackStatusCodes_debugCount, trackEndpoints_debugCount, trackUsers_debugCount,
    trackResponse_debugCount, countLevel_debugCount]

theorem processEntry_totalResponseMs (a : LogAggregation) (e : LogEntry) :
    (processEntry a e).totalResponseMs = a.totalResponseMs + e.responseTimeMs := by
  unfold processEntry
  rw [trackStatusCodes_totalResponseMs, trackEndpoints_totalResponseMs,
    trackUsers_totalResponseMs, trackResponse_totalResponseMs, countLevel_totalResponseMs]

theorem processEntry_maxResponseMs (a : LogAggregation) (e : LogEntry) :
    (processEntry a e).maxResponseMs = max a.maxResponseMs e.responseTimeMs := by
  unfold processEntry
  rw [trackStatusCodes_maxResponseMs, trackEndpoints_maxResponseMs,
    trackUsers_maxResponseMs, trackResponse_maxResponseMs, countLevel_maxResponseMs]

theorem processEntry_uniqueUsers (a : LogAggregation) (e : LogEntry) :
    (processEntry a e).uniqueUsers =
      a.uniqueUsers ∪ (if e.userId = "" then ∅ else {e.userId}) := by
  unfold processEntry
  rw [trackStatusCodes_uniqueUsers, trackEndpoints_uniqueUsers, trackUsers_uniqueUsers,
    trackResponse_uniqueUsers, countLevel_uniqueUsers]

theorem processEntry_uniqueEndpoints (a : LogAggregation) (e : LogEntry) :
    (processEntry a e).uniqueEndpoints =
      a.uniqueEndpoints ∪ (if e.endpoint = "" then ∅ else {e.endpoint}) := by
  unfold processEntry
  rw [trackStatusCodes_uniqueEndpoints, trackEndpoints_uniqueEndpoints,
    trackUsers_uniqueEndpoints, trackResponse_uniqueEndpoints, countLevel_uniqueEndpoints]

theorem processEntry_statusCodeCounts (a : LogAggregation) (e : LogEntry) (c : Int) :
    (processEntry a e).statusCodeCounts c =
      a.statusCodeCounts c + (if 0 < e.statusCode ∧ c = e.statusCode then 1 else 0) := by
  unfold processEntry
  rw [trackStatusCodes_statusCodeCounts, trackEndpoints_statusCodeCounts,
    trackUsers_statusCodeCounts, trackResponse_statusCodeCounts, countLevel_statusCodeCounts]

theorem parseStep_totalLines (d : String → Option LogEntry) (a : LogAggregation)
    (s : String) : (parseStep d a s).totalLines = a.totalLines := by
  unfold parseStep
  split_ifs with h
  · rfl
  · cases hd : d s <;> simp [processEntry_totalLines]

theorem parseStep_processedLines (d : String → Option LogEntry) (a : LogAggregation)
    (s : String) :
    (parseStep d a s).processedLines = a.processedLines + procBump d s := by
  unfold parseStep procBump entryOf
  split_ifs with h
  · rfl
  · cases hd : d s <;> simp [processEntry_processedLines]

theorem parseStep_errorCount (d : String → Option LogEntry) (a : LogAggregation)
    (s : String) :
    (parseStep d a s).errorCount = a.errorCount + levelBump "ERROR" d s := by
  unfold parseStep levelBump entryOf
  split_ifs with h
  · rfl
  · cases hd : d s <;> simp [processEntry_errorCount]

theorem parseStep_warnCount (d : String → Option LogEntry) (a : LogAggregation)
    (s : String) :
    (parseStep d a s).warnCount = a.warnCount + warnBump d s := by
  unfold parseStep warnBump
  split_ifs with h
  · rfl
  · cases hd : d s <;> simp [processEntry_warnCount]

theorem parseStep_infoCount (d : String → Option LogEntry) (a : LogAggregation)
    (s : String) :
    (parseStep d a s).infoCount = a.infoCount + levelBump "INFO" d s := by
  unfold parseStep levelBump entryOf
  split_ifs with h
  · rfl
  · cases hd : d s <;> simp [processEntry_infoCount]

theorem parseStep_debugCount (d : String → Option LogEntry) (a : LogAggregation)
    (s : String) :
    (parseStep d a s).debugCount = a.debugCount + levelBump "DEBUG" d s := by
  unfold parseStep levelBump entryOf
  split_ifs with h
  · rfl
  · cases hd : d s <;> simp [processEntry_debugCount]

theorem parseStep_totalResponseMs (d : String → Option LogEntry) (a : LogAggregation)
    (s : String) :
    (parseStep d a s).totalResponseMs = a.totalResponseMs + respBump d s := by
  unfold parseStep respBump entryOf
  split_ifs with h
  · simp
  · cases hd : d s <;> simp [processEntry_totalResponseMs]

theorem parseStep_maxResponseMs (d : String → Option LogEntry) (a : LogAggregation)
    (s : String) :
    (parseStep d a s).maxResponseMs =
      (match entryOf d s with
       | some e => max a.maxResponseMs e.responseTimeMs
       | none => a.maxResponseMs) := by
  unfold parseStep entryOf
  split_ifs with h
  · rfl
  · cases hd : d s <;> simp [processEntry_maxResponseMs]

theorem parseStep_uniqueUsers (d : String → Option LogEntry) (a : LogAggregation)
    (s : String) :
    (parseStep d a s).uniqueUsers = a.uniqueUsers ∪ userBump d s := by
  unfold parseStep userBump entryOf
  split_ifs with h
  · simp
  · cases hd : d s <;> simp [processEntry_uniqueUsers]

theorem parseStep_uniqueEndpoints (d : String → Option LogEntry) (a : LogAggregation)
    (s : String) :
    (parseStep d a s).uniqueEndpoints = a.uniqueEndpoints ∪ endpointBump d s := by
  unfold parseStep endpointBump entryOf
  split_ifs with h
  · simp
  · cases hd : d s <;> simp [processEntry_uniqueEndpoints]

theorem parseStep_statusCodeCounts (d : String → Option LogEntry) (a : LogAggregation)
    (s : String) (c : Int) :
    (parseStep d a s).statusCodeCounts c = a.statusCodeCounts c + codeBump d s c := by
  unfold parseStep codeBump entryOf
  split_ifs with h
  · rfl
  · cases hd : d s <;> simp [processEntry_statusCodeCounts]

/-- Two scan-loop iterations commute: every per-line update (count increment,
sum, max, set insertion, map increment) is order-insensitive. -/
theorem parseStep_comm (d : String → Option LogEntry) (a : LogAggregation)
    (s t : String) :
    parseStep d (parseStep d a s) t = parseStep d (parseStep d a t) s := by
  apply LogAggregation.ext_fields
  · simp only [parseStep_totalLines]
  · simp only [parseStep_processedLines]
    omega
  · simp only [parseStep_errorCount]
    omega
  · simp only [parseStep_warnCount]
    omega
  · simp only [parseStep_infoCount]
    omega
  · simp only [parseStep_debugCount]
    omega
  · simp only [parseStep_totalResponseMs]
    omega
  · simp only [parseStep_maxResponseMs]
    cases h1 : entryOf d s <;> cases h2 : entryOf d t <;>
      simp [max_assoc, max_comm, max_left_comm]
  · simp only [parseStep_uniqueUsers]
    rw [Finset.union_right_comm]
  · simp only [parseStep_uniqueEndpoints]
    rw [Finset.union_right_comm]
  · funext c
    simp only [parseStep_statusCodeCounts]
    omega

/-- Folding the scan loop over a permuted line list gives the same
accumulator. -/
theorem foldl_parseStep_perm (d : String → Option LogEntry) {l1 l2 : List String}
    (p : l1.Perm l2) :
    ∀ a : LogAggregation, l1.foldl (parseStep d) a = l2.foldl (parseStep d) a := by
  induction p with
  | nil => intro a; rfl
  | cons x p ih =>
    intro a
    simp only [List.foldl_cons]
    exact ih _
  | swap x y l =>
    intro a
    simp only [List.foldl_cons]
    rw [parseStep_comm]
  | trans p q ih1 ih2 =>
    intro a
    rw [ih1, ih2]

theorem foldl_parseStep_totalLines (d : String → Option LogEntry) (l : List String) :
    ∀ a : LogAggregation, (l.foldl (parseStep d) a).totalLines = a.totalLines := by
  induction l with
  | nil => intro a; rfl
  | cons s l ih =>
    intro a
    simp only [List.foldl_cons]
    rw [ih, parseStep_totalLines]

theorem foldl_parseStep_processedLines (d : String → Option LogEntry) (l : List String) :
    ∀ a : LogAggregation,
      (l.foldl (parseStep d) a).processedLines =
        a.processedLines + (decodedEntries d l).length := by
  induction l with
  | nil => intro a; simp [decodedEntries]
  | cons s l ih =>
    intro a
    simp only [List.foldl_cons]
    rw [ih, parseStep_processedLines]
    show a.processedLines + procBump d s + (decodedEntries d l).length =
      a.processedLines + (decodedEntries d (s :: l)).length
    unfold decodedEntries procBump
    rw [List.filterMap_cons]
    cases h : entryOf d s
    · simp
    · simp
      omega

theorem foldl_parseStep_maxResponseMs (d : String → Option LogEntry) (l : List String) :
    ∀ a : LogAggregation,
      (l.foldl (parseStep d) a).maxResponseMs =
        (decodedEntries d l).foldl (fun m e => max m e.responseTimeMs)
          a.maxResponseMs := by
  induction l with
  | nil => intro a; simp [decodedEntries]
  | cons s l ih =>
    intro a
    simp only [List.foldl_cons]
    rw [ih, parseStep_maxResponseMs]
    unfold decodedEntries
    rw [List.filterMap_cons]
    cases h : entryOf d s
    · simp
    · simp

theorem Parse_totalLines (d : String → Option LogEntry) (l : List String) :
    (Parse d l).totalLines = l.length := rfl

theorem Parse_processedLines (d : String → Option LogEntry) (l : List String) :
    (Parse d l).processedLines = (decodedEntries d l).length := by
  show (l.foldl (parseStep d) NewLogAggregation).processedLines = _
  rw [foldl_parseStep_processedLines]
  simp [NewLogAggregation]

theorem Parse_maxResponseMs_eq (d : String → Option LogEntry) (l : List String) :
    (Parse d l).maxResponseMs =
      (decodedEntries d l).foldl (fun m e => max m e.responseTimeMs) 0 :=
  foldl_parseStep_maxResponseMs d l NewLogAggregation

theorem le_foldl_maxEntries (l : List LogEntry) :
    ∀ m : Int, m ≤ l.foldl (fun m e => max m e.responseTimeMs) m := by
  induction l with
  | nil => intro m; simp
  | cons e l ih =>
    intro m
    simp only [List.foldl_cons]
    exact le_trans (le_max_left _ _) (ih _)

theorem mem_le_foldl_maxEntries (l : List LogEntry) :
    ∀ m : Int, ∀ e ∈ l,
      e.responseTimeMs ≤ l.foldl (fun m x => max m x.responseTimeMs) m := by
  induction l with
  | nil =>
    intro m e he
    cases he
  | cons x l ih =>
    intro m e he
    rcases List.mem_cons.mp he with h | h
    · subst h
      simp only [List.foldl_cons]
      exact le_trans (le_max_right _ _) (le_foldl_maxEntries _ _)
    · simp only [List.foldl_cons]
      exact ih _ e h

theorem foldl_maxEntries_mem (l : List LogEntry) :
    ∀ m : Int,
      l.foldl (fun m x => max m x.responseTimeMs) m = m ∨
        ∃ e ∈ l, l.foldl (fun m x => max m x.responseTimeMs) m = e.responseTimeMs := by
  induction l with
  | nil => intro m; left; rfl
  | cons x l ih =>
    intro m
    rcases ih (max m x.responseTimeMs) with h | h
    · rcases max_choice m x.responseTimeMs with hm | hm
      · left
        simp only [List.foldl_cons]
        rw [h, hm]
      · right
        refine ⟨x, List.mem_cons_self x l, ?_⟩
        simp only [List.foldl_cons]
        rw [h, hm]
    · right
      obtain ⟨e, he, heq⟩ := h
      exact ⟨e, List.mem_cons_of_mem _ he, by simp only [List.foldl_cons]; exact heq⟩

theorem mem_decodedEntries_decode {d : String → Option LogEntry} {l : List String}
    {e : LogEntry} (he : e ∈ decodedEntries d l) : ∃ s, d s = some e := by
  unfold decodedEntries at he
  obtain ⟨s, hs, hmem⟩ := List.mem_filterMap.mp he
  unfold entryOf at hmem
  by_cases h : s.length = 0
  · simp [h] at hmem
  · simp only [h, if_false] at hmem
    exact ⟨s, hmem⟩

theorem Parse_max_mono (d : String → Option LogEntry) (lines : List String)
    (n m : Nat) (h : n ≤ m) :
    (Parse d (lines.take n)).maxResponseMs ≤
      (Parse d (lines.take m)).maxResponseMs := by
  rw [Parse_maxResponseMs_eq, Parse_maxResponseMs_eq]
  have hsplit : lines.take m = lines.take n ++ (lines.take m).drop n := by
    conv_lhs => rw [← List.take_append_drop n (lines.take m)]
    rw [List.take_take, Nat.min_eq_left h]
  rw [hsplit]
  unfold decodedEntries
  rw [List.filterMap_append, List.foldl_append]
  exact le_foldl_maxEntries _ _

/-- First line of the spec's end-to-end scenario (an INFO record with
response time 10). -/
def scenarioLine1 : String := "\x7b\"level\":\"INFO\",\"response_time_ms\":10\x7d"

/-- Second line of the spec's end-to-end scenario (an ERROR record with
response time 500). -/
def scenarioLine2 : String := "\x7b\"level\":\"ERROR\",\"response_time_ms\":500\x7d"

/-- Third line of the spec's end-to-end scenario: malformed. -/
def scenarioLine3 : String := "not-json"

/-- The three-line NDJSON file of the spec's end-to-end scenario. -/
def scenarioLines : List String := [scenarioLine1, scenarioLine2, scenarioLine3]

/-- Modelled from the spec: the behavior of the external JSON decoder
(`encoding/json.Unmarshal` into `LogEntry`, which is Go library code not part
of the repository source) on the three lines of the spec's end-to-end
scenario, per the spec's log-file format: the two well-formed objects decode
with the stated `level` and `response_time_ms` and Go zero values for the
absent fields; `not-json` fails to decode. -/
def scenarioDecode : String → Option LogEntry := fun s =>
  if s = scenarioLine1 then
    some { timestamp := "", level := "INFO", endpoint := "", responseTimeMs := 10,
           statusCode := 0, userId := "", message := "" }
  else if s = scenarioLine2 then
    some { timestamp := "", level := "ERROR", endpoint := "", responseTimeMs := 500,
           statusCode := 0, userId := "", message := "" }
  else none

/-- A job descriptor fixture for concrete scenarios. -/
def scenarioJob : ProcessingJob :=
  { jobId := "42", bucket := "b", key := "logs/test_42_20240101T000000.json",
    size := 100, contentType := "application/json", receivedAt := 0, validatedAt := 0 }

/-- Claim C1, counterexample: on the spec's 3-line scenario the worker's
Result carries `warn_count = 1` (the malformed line is tallied as a warning by
`LogParser.Parse`), not `warn_count = 0` as the claim states. -/
theorem claim1_counterexample :
    (processMessage scenarioDecode scenarioJob scenarioLines 0 0 0 0).warnCount = 1 ∧
    decide ((processMessage scenarioDecode scenarioJob scenarioLines 0 0 0 0).warnCount = 0)
      = false := by
  exact ⟨by decide, by decide⟩

/-- Claim C1 (amended): for the 3-line NDJSON input consisting of an INFO
line with response_time_ms 10, an ERROR line with response_time_ms 500, and
the malformed line `not-json`, the worker produces a Result with status
"completed", line_count 3, error_count 1, info_count 1, warn_count 1 (the
malformed line is counted as a warning), avg_response_time_ms 255.0, and
max_response_time_ms 500. -/
theorem claim1_amended :
    (processMessage scenarioDecode scenarioJob scenarioLines 0 0 0 0).status = "completed" ∧
    (processMessage scenarioDecode scenarioJob scenarioLines 0 0 0 0).lineCount = 3 ∧
    (processMessage scenarioDecode scenarioJob scenarioLines 0 0 0 0).errorCount = 1 ∧
    (processMessage scenarioDecode scenarioJob scenarioLines 0 0 0 0).infoCount = 1 ∧
    (processMessage scenarioDecode scenarioJob scenarioLines 0 0 0 0).warnCount = 1 ∧
    (processMessage scenarioDecode scenarioJob scenarioLines 0 0 0 0).avgResponseTimeMs = 255 ∧
    (processMessage scenarioDecode scenarioJob scenarioLines 0 0 0 0).maxResponseTimeMs = 500 := by
  refine ⟨rfl, by decide, by decide, by decide, by decide, ?_, by decide⟩
  show GetAverageResponseTime (Parse scenarioDecode scenarioLines) = 255
  have h1 : (Parse scenarioDecode scenarioLines).processedLines = 2 := by decide
  have h2 : (Parse scenarioDecode scenarioLines).totalResponseMs = 510 := by decide
  unfold GetAverageResponseTime
  rw [h1, h2]
  norm_num

/-- Claim C2, counterexample: the input consisting of one empty line (the
scan of a file holding just a newline) has no non-empty lines, yet `Parse`
reports `total_lines = 1` — the loop counter is incremented before the
empty-line check, so empty lines are counted in `total_lines`. -/
theorem claim2_counterexample :
    (Parse (fun _ => none) [""]).totalLines = 1 ∧
    (([""] : List String).filter (fun s => s.length != 0)).length = 0 ∧
    decide ((Parse (fun _ => none) [""]).totalLines =
      (([""] : List String).filter (fun s => s.length != 0)).length) = false := by
  exact ⟨by decide, by decide, by decide⟩

/-- Claim C2 (amended): after `Parse` completes, `total_lines` equals the
number of all scanned lines, empty lines included; empty lines are otherwise
skipped entirely (one scan-loop iteration on an empty line leaves the
accumulator unchanged — no decode failure, no processed line); and
`processed_lines ≤ total_lines`. -/
theorem claim2_amended (d : String → Option LogEntry) (l : List String) :
    (Parse d l).totalLines = l.length ∧
    (Parse d l).processedLines ≤ (Parse d l).totalLines ∧
    ∀ a : LogAggregation, parseStep d a "" = a := by
  refine ⟨Parse_totalLines d l, ?_, fun a => rfl⟩
  rw [Parse_totalLines, Parse_processedLines]
  unfold decodedEntries
  exact List.length_filterMap_le _ _

/-- Claim C3, counterexample: the key `data/test_7_20240101.json` has the
json suffix but the wrong prefix; the validator does not silently skip it —
it reports an error for this notification. -/
theorem claim3_counterexample :
    decide (processRecord "b" "data/test_7_20240101.json" (some (5, "application/json")) true 0 0 =
      TriggerOutcome.skipped) = false ∧
    processRecord "b" "data/test_7_20240101.json" (some (5, "application/json")) true 0 0 =
      TriggerOutcome.failed
        ("could not extract test_id from key: " ++ "data/test_7_20240101.json") := by
  exact ⟨by decide, by decide⟩

/-- Claim C3 (amended): a notification whose key lacks the json suffix is
silently skipped (no Job, no message, no error); but a key with the json
suffix that does not match the `logs/test_..._...` naming convention (wrong
prefix or too few underscore segments) is not silently skipped — after the
metadata fetch succeeds the validator fails that notification with a parse
error and produces no Job. -/
theorem claim3_amended (bucket key : String) (headResult : Option (Int × String))
    (sendOk : Bool) (eventTime now : Int) :
    (¬ (goHasSuffix (goToLower key) ".json" = true) →
      processRecord bucket key headResult sendOk eventTime now = TriggerOutcome.skipped) ∧
    (∀ size contentType,
      goHasSuffix (goToLower key) ".json" = true →
      headResult = some (size, contentType) →
      ¬ (3 ≤ (goSplit key '_').length ∧ (goSplit key '_').headD "" = "logs/test") →
      processRecord bucket key headResult sendOk eventTime now =
        TriggerOutcome.failed ("could not extract test_id from key: " ++ key)) := by
  constructor
  · intro h
    unfold processRecord
    rw [if_pos h]
  · intro size contentType hsuf hhead hconv
    subst hhead
    unfold processRecord
    rw [if_neg (not_not_intro hsuf)]
    simp only [List.headD_eq_head?] at hconv
    simp [hconv]

/-- Witness for claim C3: the amended claim evaluated at the wrong-suffix key
`logs/readme.txt` and the wrong-prefix key `data/test_7_20240101.json`. -/
theorem claim3_witness :
    processRecord "b" "logs/readme.txt" (some (5, "text/plain")) true 0 0 =
      TriggerOutcome.skipped ∧
    processRecord "b" "data/test_7_20240101.json" (some (5, "application/json")) true 0 0 =
      TriggerOutcome.failed
        ("could not extract test_id from key: " ++ "data/test_7_20240101.json") :=
  ⟨(claim3_amended "b" "logs/readme.txt" (some (5, "text/plain")) true 0 0).1 (by decide),
   (claim3_amended "b" "data/test_7_20240101.json" (some (5, "application/json")) true 0 0).2
     5 "application/json" (by decide) rfl (by decide)⟩

/-- Claim C4: processing the same Job twice over the same file bytes yields
two Results whose statistics content is identical — job_id, status,
line_count, error_count, warn_count, info_count, avg_response_time_ms,
max_response_time_ms, unique_users, unique_endpoints all equal — whatever the
wall-clock parameters (processing_time_ms and the timestamp fields) of the
two runs are. -/
theorem claim4_thm (d : String → Option LogEntry) (job : ProcessingJob)
    (lines : List String) (t1 t2 t3 t4 u1 u2 u3 u4 : Int) :
    (processMessage d job lines t1 t2 t3 t4).jobId =
        (processMessage d job lines u1 u2 u3 u4).jobId ∧
    (processMessage d job lines t1 t2 t3 t4).status =
        (processMessage d job lines u1 u2 u3 u4).status ∧
    (processMessage d job lines t1 t2 t3 t4).lineCount =
        (processMessage d job lines u1 u2 u3 u4).lineCount ∧
    (processMessage d job lines t1 t2 t3 t4).errorCount =
        (processMessage d job lines u1 u2 u3 u4).errorCount ∧
    (processMessage d job lines t1 t2 t3 t4).warnCount =
        (processMessage d job lines u1 u2 u3 u4).warnCount ∧
    (processMessage d job lines t1 t2 t3 t4).infoCount =
        (processMessage d job lines u1 u2 u3 u4).infoCount ∧
    (processMessage d job lines t1 t2 t3 t4).avgResponseTimeMs =
        (processMessage d job lines u1 u2 u3 u4).avgResponseTimeMs ∧
    (processMessage d job lines t1 t2 t3 t4).maxResponseTimeMs =
        (processMessage d job lines u1 u2 u3 u4).maxResponseTimeMs ∧
    (processMessage d job lines t1 t2 t3 t4).uniqueUsers =
        (processMessage d job lines u1 u2 u3 u4).uniqueUsers ∧
    (processMessage d job lines t1 t2 t3 t4).uniqueEndpoints =
        (processMessage d job lines u1 u2 u3 u4).uniqueEndpoints :=
  ⟨rfl, rfl, rfl, rfl, rfl, rfl, rfl, rfl, rfl, rfl⟩

/-- Claim C5: for every input, the average response time computed after
parsing is 0 when `processed_lines = 0`, and otherwise it is exactly
`total_response_ms / processed_lines`; the dividing branch is only taken with
a non-zero denominator. -/
theorem claim5_thm (d : String → Option LogEntry) (l : List String) :
    ((Parse d l).processedLines = 0 ∧ GetAverageResponseTime (Parse d l) = 0) ∨
    ((Parse d l).processedLines ≠ 0 ∧
      GetAverageResponseTime (Parse d l) =
        ((Parse d l).totalResponseMs : Rat) / ((Parse d l).processedLines : Rat)) := by
  by_cases h : (Parse d l).processedLines = 0
  · left
    refine ⟨h, ?_⟩
    unfold GetAverageResponseTime
    rw [if_pos h]
  · right
    refine ⟨h, ?_⟩
    unfold GetAverageResponseTime
    rw [if_neg h]

/-- Claim C6: under the data-model precondition that every decoded record has
a non-negative response time, `max_response_ms` starts at 0, is monotonically
non-decreasing as lines are ingested (over ever longer prefixes of the input),
bounds the response time of every decoded line from above, and after the
stream is exhausted equals the maximum response time over all successfully
decoded lines (0 if there are none). -/
theorem claim6_thm (d : String → Option LogEntry) (lines : List String)
    (h : ∀ s e, d s = some e → 0 ≤ e.responseTimeMs) :
    NewLogAggregation.maxResponseMs = 0 ∧
    (∀ n m : Nat, n ≤ m →
      (Parse d (lines.take n)).maxResponseMs ≤
        (Parse d (lines.take m)).maxResponseMs) ∧
    (∀ e ∈ decodedEntries d lines,
      e.responseTimeMs ≤ (Parse d lines).maxResponseMs) ∧
    (((Parse d lines).maxResponseMs = 0 ∧ decodedEntries d lines = []) ∨
      ∃ e ∈ decodedEntries d lines,
        (Parse d lines).maxResponseMs = e.responseTimeMs) := by
  have hnn : ∀ e ∈ decodedEntries d lines, 0 ≤ e.responseTimeMs := by
    intro e he
    obtain ⟨s, hs⟩ := mem_decodedEntries_decode he
    exact h s e hs
  refine ⟨rfl, fun n m hnm => Parse_max_mono d lines n m hnm, ?_, ?_⟩
  · intro e he
    rw [Parse_maxResponseMs_eq]
    exact mem_le_foldl_maxEntries _ 0 e he
  · by_cases hl : decodedEntries d lines = []
    · left
      refine ⟨?_, hl⟩
      rw [Parse_maxResponseMs_eq, hl]
      rfl
    · rcases foldl_maxEntries_mem (decodedEntries d lines) 0 with h0 | hmem
      · obtain ⟨e0, he0⟩ := List.exists_mem_of_ne_nil _ hl
        right
        refine ⟨e0, he0, ?_⟩
        rw [Parse_maxResponseMs_eq, h0]
        have h1 : e0.responseTimeMs ≤ 0 := by
          have h2 := mem_le_foldl_maxEntries (decodedEntries d lines) 0 e0 he0
          rw [h0] at h2
          exact h2
        exact (le_antisymm h1 (hnn e0 he0)).symm
      · obtain ⟨e0, he0, heq⟩ := hmem
        right
        refine ⟨e0, he0, ?_⟩
        rw [Parse_maxResponseMs_eq]
        exact heq

/-- A fixed log entry used as a concrete decoder output in witnesses. -/
def fixedEntry : LogEntry :=
  { timestamp := "", level := "INFO", endpoint := "/a", responseTimeMs := 7,
    statusCode := 200, userId := "u1", message := "" }

/-- A concrete decoder that accepts every line as `fixedEntry`. -/
def fixedDecode : String → Option LogEntry := fun _ => some fixedEntry

/-- Witness for claim C6: the theorem applied to `fixedDecode` (whose every
output has non-negative response time) on the one-line input. -/
theorem claim6_witness :
    (∀ s e, fixedDecode s = some e → 0 ≤ e.responseTimeMs) ∧
    (NewLogAggregation.maxResponseMs = 0 ∧
     (∀ n m : Nat, n ≤ m →
       (Parse fixedDecode (["x"].take n)).maxResponseMs ≤
         (Parse fixedDecode (["x"].take m)).maxResponseMs) ∧
     (∀ e ∈ decodedEntries fixedDecode ["x"],
       e.responseTimeMs ≤ (Parse fixedDecode ["x"]).maxResponseMs) ∧
     (((Parse fixedDecode ["x"]).maxResponseMs = 0 ∧
         decodedEntries fixedDecode ["x"] = []) ∨
       ∃ e ∈ decodedEntries fixedDecode ["x"],
         (Parse fixedDecode ["x"]).maxResponseMs = e.responseTimeMs)) := by
  have h : ∀ s e, fixedDecode s = some e → 0 ≤ e.responseTimeMs := by
    intro s e hse
    have h2 : some fixedEntry = some e := hse
    injection h2 with h3
    rw [← h3]
    decide
  exact ⟨h, claim6_thm fixedDecode ["x"] h⟩

/-- Claim C8: for every Job whose source fetch fails or whose parse step
fails with a scan error, the worker attempts to write a Result with status
"failed" carrying the error message (the write lands in the store only when
the store accepts it — a failed write is not propagated), and it returns the
original fetch/parse error upward regardless of whether that write succeeded;
it never returns success in these cases. -/
theorem claim8_thm (d : String → Option LogEntry) (job : ProcessingJob)
    (fetch : Except String (List String)) (scanErr : Option String)
    (saveOk : Bool) (t1 t2 t3 t4 : Int) (e : String)
    (h : fetch = Except.error e ∨
      (∃ lines, fetch = Except.ok lines ∧ scanErr = some e)) :
    ∃ msg r,
      processMessageRun d job fetch scanErr saveOk t1 t2 t3 t4 =
        { returnedError := some msg
          attemptedWrite := some r
          storedResult := if saveOk then some r else none } ∧
      r.status = "failed" ∧ r.errorMessage = msg ∧
      (msg = "failed to get S3 object: " ++ e ∨
        msg = "failed to parse logs: error scanning file: " ++ e) := by
  rcases h with h | ⟨lines, hf, hs⟩
  · subst h
    exact ⟨_, _, rfl, rfl, rfl, Or.inl rfl⟩
  · subst hf
    subst hs
    exact ⟨_, _, rfl, rfl, rfl, Or.inr rfl⟩

/-- Witness for claim C8: the theorem applied to a fetch failure `boom` with
a store that rejects the failed-result write. -/
theorem claim8_witness :
    ((Except.error "boom" : Except String (List String)) = Except.error "boom" ∨
      (∃ lines, (Except.error "boom" : Except String (List String)) = Except.ok lines ∧
        (none : Option String) = some "boom")) ∧
    (∃ msg r,
      processMessageRun fixedDecode scenarioJob (Except.error "boom") none false 0 0 0 0 =
        { returnedError := some msg
          attemptedWrite := some r
          storedResult := if false then some r else none } ∧
      r.status = "failed" ∧ r.errorMessage = msg ∧
      (msg = "failed to get S3 object: " ++ "boom" ∨
        msg = "failed to parse logs: error scanning file: " ++ "boom")) :=
  ⟨Or.inl rfl,
   claim8_thm fixedDecode scenarioJob (Except.error "boom") none false 0 0 0 0 "boom"
     (Or.inl rfl)⟩

/-- Claim C9: parsing any permutation of the input lines yields the same
final aggregation — all reductions performed by the scan loop commute. -/
theorem claim9_thm (d : String → Option LogEntry) (l1 l2 : List String)
    (p : l1.Perm l2) : Parse d l1 = Parse d l2 := by
  unfold Parse
  rw [foldl_parseStep_perm d p NewLogAggregation, p.length_eq]

/-- Witness for claim C9: the theorem applied to a two-line input and its
swap. -/
theorem claim9_witness :
    (["a", "b"] : List String).Perm ["b", "a"] ∧
    Parse fixedDecode ["a", "b"] = Parse fixedDecode ["b", "a"] :=
  ⟨by decide, claim9_thm fixedDecode ["a", "b"] ["b", "a"] (by decide)⟩

/-- Claim C10: the worker handler processes a batch in order and returns at
the first failing message: the messages it touches are exactly the successful
prefix plus the first failing message (all of them when none fails), and the
error it returns for the batch is the first failing message's error (none
when all succeed). -/
theorem claim10_thm (process : SQSMessage → Option String) (msgs : List SQSMessage) :
    (handlerRun process msgs).1 =
      msgs.takeWhile (fun m => (process m).isNone) ++
        (msgs.dropWhile (fun m => (process m).isNone)).take 1 ∧
    (handlerRun process msgs).2 =
      ((msgs.dropWhile (fun m => (process m).isNone)).head?).bind process := by
  induction msgs with
  | nil => exact ⟨rfl, rfl⟩
  | cons m rest ih =>
    cases hp : process m with
    | some e =>
      constructor
      · simp [handlerRun, hp, List.takeWhile_cons, List.dropWhile_cons]
      · simp [handlerRun, hp, List.dropWhile_cons]
    | none =>
      constructor
      · simp [handlerRun, hp, List.takeWhile_cons, List.dropWhile_cons, ih.1]
      · simp [handlerRun, hp, List.dropWhile_cons, ih.2]

/-- Claim C7: key-convention parsing — the key
`logs/test_42_20240101T000000.json` yields job_id "42" and a Job is produced
and enqueued; the key `logs/readme.txt` is skipped with no Job and no error;
the key `logs/test_bad.json` (fewer than 3 underscore-delimited segments)
fails that notification with a parse error and produces no Job. -/
theorem claim7_thm :
    processRecord "b" "logs/test_42_20240101T000000.json"
        (some (100, "application/json")) true 0 0 =
      TriggerOutcome.enqueued
        { jobId := "42", bucket := "b", key := "logs/test_42_20240101T000000.json",
          size := 100, contentType := "application/json",
          receivedAt := 0, validatedAt := 0 } ∧
    processRecord "b" "logs/readme.txt" (some (100, "application/json")) true 0 0 =
      TriggerOutcome.skipped ∧
    processRecord "b" "logs/test_bad.json" (some (100, "application/json")) true 0 0 =
      TriggerOutcome.failed ("could not extract test_id from key: " ++ "logs/test_bad.json") := by
  exact ⟨by decide, by decide, by decide⟩
